import Mathlib

/-!
Verification of the Latvia fiscal DSGE solver and its backend fiscal impact
engine.  Machine real numbers are modelled by `ℚ`; Python `round` (banker's
rounding) and `int` truncation are modelled explicitly.  The embedded
definitions follow the repository sources:

* `src/backend/src/economic_api/domain/services/dsge_fiscal_solver.py`
* `src/backend/src/economic_api/domain/services/dsge_simulation_engine.py`
* `src/backend/src/economic_api/domain/model/aggregates/__init__.py`
* `src/dsge_latvia/src/lv_fiscal_dsge/gensys.py`
* `src/dsge_latvia/src/lv_fiscal_dsge/irf.py`
* `src/dsge_latvia/src/lv_fiscal_dsge/steady_state.py`
-/

/-- Python `round(q)`: round to the nearest integer, ties to the even integer. -/
def roundHalfEven (q : ℚ) : ℤ :=
  let f := ⌊q⌋
  if q - f < 1/2 then f
  else if (1/2 : ℚ) < q - f then f + 1
  else if f % 2 = 0 then f else f + 1

/-- Python `round(q, 1)`: round to one decimal digit. -/
def round1 (q : ℚ) : ℚ := (roundHalfEven (q * 10) : ℚ) / 10

/-- Python `round(q, 2)`: round to two decimal digits. -/
def round2 (q : ℚ) : ℚ := (roundHalfEven (q * 100) : ℚ) / 100

/-- Python `int(q)`: truncation toward zero. -/
def intTrunc (q : ℚ) : ℤ := if 0 ≤ q then ⌊q⌋ else ⌈q⌉

/-- The `FiscalParameters` dataclass of `dsge_fiscal_solver.py` (defaults included). -/
structure FiscalParameters where
  eta_g : ℚ := 0.38
  dgy : ℚ := 0.30
  omega_h : ℚ := 0.10
  tau_k : ℚ := 0.10
  tau_w_e : ℚ := 0.155
  tau_w_w : ℚ := 0.061
  tau_c : ℚ := 0.21
  tau_y : ℚ := 0.164
  tau_c_g : ℚ := 0.463
  tau_i_g : ℚ := 0.117
  tau_tr_g : ℚ := 0.300
  tau_r_tr : ℚ := 0.70
  alpha : ℚ := 0.33
  alpha_k : ℚ := 0.85
  omega_g_c : ℚ := 0.13
  omega_g_i : ℚ := 0.45
  nu_c : ℚ := 0.50
  nu_k : ℚ := 0.15
  eta_g_c : ℚ := 1.30
  eta_g_i : ℚ := 1.46
  fiscal_multiplier_transfers : ℚ := 0.8
  fiscal_multiplier_consumption : ℚ := 1.1
  fiscal_multiplier_investment : ℚ := 1.3
  lambda_r : ℚ := 0.35
  mpc_restricted : ℚ := 0.95
  mpc_optimizing : ℚ := 0.30
  adjustment_speed_short : ℚ := 0.40
  adjustment_speed_medium : ℚ := 0.25
  adjustment_speed_long : ℚ := 0.15

/-- The `FiscalShock` dataclass of `dsge_fiscal_solver.py`. -/
structure FiscalShock where
  delta_transfers : ℚ := 0
  delta_gov_consumption : ℚ := 0
  delta_gov_investment : ℚ := 0
  delta_tau_c : ℚ := 0
  delta_tau_y : ℚ := 0
  delta_tau_w_e : ℚ := 0
  delta_tau_w_w : ℚ := 0

/-- The `SteadyState` dataclass of `dsge_fiscal_solver.py`. -/
structure SolverSteadyState where
  gdp : ℚ
  government_spending : ℚ
  transfers : ℚ
  gov_consumption : ℚ
  gov_investment : ℚ
  employment_total : ℚ
  unemployment_rate : ℚ

/-- Embedding of `SimplifiedFiscalSolver._compute_steady_state`. -/
def computeSteadyState (p : FiscalParameters) : SolverSteadyState :=
  let gdp : ℚ := 32000
  let gov_spending := p.eta_g * gdp
  { gdp := gdp
    government_spending := gov_spending
    transfers := p.tau_tr_g * gov_spending
    gov_consumption := p.tau_c_g * gov_spending
    gov_investment := p.tau_i_g * gov_spending
    employment_total := 900000
    unemployment_rate := 0.075 }

/-- First-round GDP impact in `solve_fiscal_shock` (lines 145–173):
expenditure shocks times multipliers plus the supply-side tax terms. -/
def gdpImpactFirstRound (p : FiscalParameters) (s : FiscalShock) : ℚ :=
  let ss := computeSteadyState p
  let gdp_impact_transfers := s.delta_transfers * p.fiscal_multiplier_transfers
  let gdp_impact_consumption := s.delta_gov_consumption * p.fiscal_multiplier_consumption
  let gdp_impact_investment := s.delta_gov_investment * p.fiscal_multiplier_investment
  let effective_labor_tax_change := s.delta_tau_y + s.delta_tau_w_e + s.delta_tau_w_w
  let gdp_impact_labor_tax := -effective_labor_tax_change * 0.01 * ss.gdp * 1.2
  let gdp_impact_consumption_tax := -s.delta_tau_c * 0.01 * ss.gdp * 0.5
  gdp_impact_transfers + gdp_impact_consumption + gdp_impact_investment
    + gdp_impact_labor_tax + gdp_impact_consumption_tax

/-- First-round employment impact in `solve_fiscal_shock` (lines 175–181),
Okun's law with elasticity 0.5. -/
def employmentImpactFirstRound (p : FiscalParameters) (s : FiscalShock) : ℚ :=
  let ss := computeSteadyState p
  (gdpImpactFirstRound p s / ss.gdp) * 0.5 * ss.employment_total

/-- Revenue impact in `solve_fiscal_shock` (lines 183–191). -/
def revenueImpact (p : FiscalParameters) (s : FiscalShock) : ℚ :=
  let ss := computeSteadyState p
  let effective_labor_tax_change := s.delta_tau_y + s.delta_tau_w_e + s.delta_tau_w_w
  let expenditure_term := -(s.delta_transfers + s.delta_gov_consumption + s.delta_gov_investment)
  expenditure_term
    + s.delta_tau_c * 0.01 * ss.gdp * 0.6
    + effective_labor_tax_change * 0.01 * ss.gdp * 0.5

/-- Expenditure impact in `solve_fiscal_shock` (line 194). -/
def expenditureImpact (s : FiscalShock) : ℚ :=
  s.delta_transfers + s.delta_gov_consumption + s.delta_gov_investment

/-- Budget balance impact in `solve_fiscal_shock` (line 196). -/
def budgetBalanceImpact (p : FiscalParameters) (s : FiscalShock) : ℚ :=
  revenueImpact p s - expenditureImpact s

/-- Adjustment speed selection in `solve_fiscal_shock` (lines 203–209). -/
def adjustmentSpeed (p : FiscalParameters) (year : ℕ) : ℚ :=
  if year = 1 then p.adjustment_speed_short
  else if year ≤ 5 then p.adjustment_speed_medium
  else p.adjustment_speed_long

/-- Realized fraction `1 - (1 - speed) ** quarters` with `quarters = 4 * year`
(lines 201, 211–214). -/
def realizedFraction (p : FiscalParameters) (year : ℕ) : ℚ :=
  1 - (1 - adjustmentSpeed p year) ^ (4 * year)

/-- Unrounded GDP impact at a horizon year (line 217). -/
def gdpImpactAtYear (p : FiscalParameters) (s : FiscalShock) (year : ℕ) : ℚ :=
  gdpImpactFirstRound p s * realizedFraction p year

/-- Unrounded employment impact at a horizon year (line 218). -/
def employmentImpactAtYear (p : FiscalParameters) (s : FiscalShock) (year : ℕ) : ℚ :=
  employmentImpactFirstRound p s * realizedFraction p year

/-- Unrounded budget impact at a horizon year (line 219). -/
def budgetImpactAtYear (p : FiscalParameters) (s : FiscalShock) (year : ℕ) : ℚ :=
  budgetBalanceImpact p s * realizedFraction p year

/-- One entry of the `horizons` list built in `solve_fiscal_shock` (lines 228–240). -/
structure HorizonEntry where
  year : ℕ
  gdp_impact_eur_m : ℚ
  gdp_real_pct : ℚ
  employment_jobs : ℤ
  budget_balance_eur_m : ℚ
  revenues_eur_m : ℚ
  expenditures_eur_m : ℚ
  inflation_pp : ℚ
  realized_fraction : ℚ

/-- The horizon dictionary assembled in the loop body of `solve_fiscal_shock`. -/
def horizonEntry (p : FiscalParameters) (s : FiscalShock) (year : ℕ) : HorizonEntry :=
  let ss := computeSteadyState p
  let gdp_impact := gdpImpactAtYear p s year
  let gdp_pct := gdp_impact / ss.gdp * 100
  { year := year
    gdp_impact_eur_m := round1 gdp_impact
    gdp_real_pct := round2 gdp_pct
    employment_jobs := roundHalfEven (employmentImpactAtYear p s year)
    budget_balance_eur_m := round1 (budgetImpactAtYear p s year)
    revenues_eur_m := round1 (revenueImpact p s * realizedFraction p year)
    expenditures_eur_m := round1 (-expenditureImpact s * realizedFraction p year)
    inflation_pp := round2 (gdp_pct * 0.3)
    realized_fraction := round2 (realizedFraction p year) }

/-- The loop of `solve_fiscal_shock` runs over the hard-coded years `[1, 5, 15]` (line 200). -/
def solveHorizons (p : FiscalParameters) (s : FiscalShock) : List HorizonEntry :=
  [horizonEntry p s 1, horizonEntry p s 5, horizonEntry p s 15]

/-- The pension-pillar-removal shock (`interpret_policy_to_shock` line 271):
`delta_transfers = -200`, all other components zero. -/
def pensionRemovalShock : FiscalShock := { delta_transfers := -200 }

/-- The `REGION_WEIGHTS` map of `dsge_simulation_engine.py` (lines 16–23). -/
def regionWeights : List (String × ℚ) :=
  [("Riga", 0.42), ("Pieriga", 0.18), ("Kurzeme", 0.12),
   ("Zemgale", 0.09), ("Vidzeme", 0.10), ("Latgale", 0.09)]

/-- Embedding of `regional_employment = int(national_employment * weight)`
(`dsge_simulation_engine.py` line 78). -/
def regionalEmployment (national : ℤ) (w : ℚ) : ℤ := intTrunc ((national : ℚ) * w)

/-- Sum of the per-region employment values produced by
`DSGESimulationEngine.simulate` for one horizon year. -/
def regionalEmploymentSum (national : ℤ) : ℤ :=
  (regionWeights.map (fun rw => regionalEmployment national rw.2)).sum

/-- The `SimulationStatus` enum of `value_objects/__init__.py`. -/
inductive SimStatus where
  | pending
  | running
  | completed
  | failed
deriving DecidableEq, Repr

/-- The `Simulation` aggregate of `aggregates/__init__.py`.  The results payload is
abstracted by a type parameter `R` (the engine stores an opaque
`SimulationResults` object); `datetime` timestamps are abstracted to `Unit`. -/
structure Sim (R : Type) where
  status : SimStatus := .pending
  results : Option R := none
  started_at : Option Unit := none
  completed_at : Option Unit := none
  error_message : Option String := none

/-- Embedding of `Simulation.start` (lines 67–72): the returned pair is the post-call state
and the raised error, if any; Python raises before mutating, so on error the
state is returned unchanged. -/
def Sim.start {R : Type} (sim : Sim R) : Sim R × Option String :=
  if sim.status ≠ .pending then (sim, some ("Cannot start simulation"))
  else ({ sim with status := .running, started_at := some () }, none)

/-- Embedding of `Simulation.complete` (lines 74–80). -/
def Sim.complete {R : Type} (sim : Sim R) (results : R) : Sim R × Option String :=
  if sim.status ≠ .running then (sim, some ("Cannot complete simulation"))
  else
    let sim' := { sim with status := .completed, results := some results, completed_at := some () }
    (sim', none)

/-- Embedding of `Simulation.fail` (lines 82–88). -/
def Sim.fail {R : Type} (sim : Sim R) (msg : String) : Sim R × Option String :=
  if sim.status ≠ .pending ∧ sim.status ≠ .running then
    (sim, some ("Cannot fail simulation"))
  else
    let sim' := { sim with status := .failed, error_message := some msg, completed_at := some () }
    (sim', none)

/-- A freshly created `Simulation` (dataclass defaults, lines 58–65). -/
def Sim.fresh (R : Type) : Sim R := {}

/-- States reachable from a fresh run through successful `start`, `complete`
and `fail` calls; a raising call returns the state unchanged, so it does not
extend reachability. -/
inductive Sim.Reachable {R : Type} : Sim R → Prop where
  | fresh : Sim.Reachable (Sim.fresh R)
  | step_start {s : Sim R} (hs : Sim.Reachable s) (h : (Sim.start s).2 = none) :
      Sim.Reachable (Sim.start s).1
  | step_complete {s : Sim R} (r : R) (hs : Sim.Reachable s)
      (h : (Sim.complete s r).2 = none) : Sim.Reachable (Sim.complete s r).1
  | step_fail {s : Sim R} (msg : String) (hs : Sim.Reachable s)
      (h : (Sim.fail s msg).2 = none) : Sim.Reachable (Sim.fail s msg).1

/-- Determinacy classification of `gensys` (`gensys.py` lines 71–86): the flags
`(eu_exist, eu_unique)` as a function of the number of unstable roots
`nunstable`, the rank of `q2 @ pi`, and the number of columns of `pi`.
Both flags default to 1 and the rank conditions run only when `nunstable > 0`;
when `pi` is empty `rank_q2pi` is 0 (line 76). -/
def euFlags (nunstable rank_q2pi cols_pi : ℕ) : ℕ × ℕ :=
  if nunstable = 0 then (1, 1)
  else if rank_q2pi < nunstable then (0, 0)
  else if nunstable < rank_q2pi then (1, 0)
  else (1, if cols_pi = nunstable then 1 else 0)

/-- The default root-divider `div = 1.0000001` (`gensys.py` lines 28–29). -/
def defaultDiv : ℚ := 1.0000001

/-- Embedding of `gensys` (`gensys.py` lines 14–111) specialized to a 1×1 system with one
exogenous shock (`psi` a 1×1 matrix) and no expectational errors (`pi` empty,
`c = None`).  The QZ decomposition of the 1×1 pencil `(g0, g1)` is the trivial
one: `q = z = (1)`, `s = (g0)`, `t = (g1)`, `alpha = g0`, `beta = g1`; the
stability test `|alpha/beta| < div` treats `beta = 0` as an infinite quotient
(lines 49–60).  The result is `some (G1, C, impact, eu)`; `none` models the
`numpy.linalg.LinAlgError` that `np.linalg.inv` raises on an exactly singular
matrix (lines 94–95) — the only failure in the code path. -/
def gensys1 (g0 g1 psi : ℚ) (div : ℚ) : Option (ℚ × ℚ × ℚ × (ℕ × ℕ)) :=
  let nstable : ℕ := if g1 ≠ 0 ∧ |g0 / g1| < div then 1 else 0
  let nunstable : ℕ := 1 - nstable
  let eu := euFlags nunstable 0 0
  if nstable = 0 then
    some (0, 0, 0, eu)
  else
    if g0 = 0 then none
    else some (g1 / g0, 0, psi / g0, eu)

/-- Shock propagation loop of `compute_irfs` (`irf.py` lines 30–33):
`irfStep g1 v 0 = v` and `irfStep g1 v (t+1) = g1 @ irfStep g1 v t`. -/
def irfStep {n : ℕ} (g1 : Matrix (Fin n) (Fin n) ℚ) (v : Fin n → ℚ) :
    ℕ → Fin n → ℚ
  | 0 => v
  | t + 1 => g1.mulVec (irfStep g1 v t)

/-- Embedding of `compute_irfs` (`irf.py` lines 18–35): the response tensor indexed as
`R[var, t, shock]`, of time extent `horizon + 1`; the per-shock scaling
defaults to all ones when omitted (lines 25–26). -/
def compute_irfs {n k : ℕ} (g1 : Matrix (Fin n) (Fin n) ℚ)
    (impact : Matrix (Fin n) (Fin k) ℚ) (horizon : ℕ)
    (shock_sizes : Option (Fin k → ℚ)) :
    Fin n → Fin (horizon + 1) → Fin k → ℚ :=
  let sizes := shock_sizes.getD (fun _ => 1)
  fun i t j => irfStep g1 (fun i' => impact i' j * sizes j) t.val i

/-- Parameters consumed by `solve_full_steady_state`
(`steady_state.py` lines 304–330) that reach the nine-equation block.
`muZplus` stands for `_mu_zplus(params) = mu_psi ** (alpha/(1-alpha)) * mu_z`
(lines 297–301), which does not depend on `beta`. -/
structure NineEqParams where
  alpha : ℚ
  beta : ℚ
  delta : ℚ
  muZplus : ℚ
  lambdaD : ℚ
  L : ℚ
  cY : ℚ
  iY : ℚ
  xY : ℚ
  gY : ℚ
  tauK : ℚ

/-- The nine unknowns `y, c, i, x_exp, g, k, w, r_k, mc` of the root-find
(`steady_state.py` line 338). -/
structure NineVars where
  y : ℚ
  c : ℚ
  i : ℚ
  x : ℚ
  g : ℚ
  k : ℚ
  w : ℚ
  rK : ℚ
  mc : ℚ

/-- Euler-implied rental rate of capital (`steady_state.py` line 334):
`r_k_target = (mu_zplus / beta - (1 - delta + tau_k * delta)) / (1 - tau_k)`. -/
def rKTarget (p : NineEqParams) : ℚ :=
  (p.muZplus / p.beta - (1 - p.delta + p.tauK * p.delta)) / (1 - p.tauK)

/-- Marginal cost target (`steady_state.py` line 335): `mc_target = 1 / lambda_d`. -/
def mcTarget (p : NineEqParams) : ℚ := 1 / p.lambdaD

/-- The residual vector of the nine-equation block (`steady_state.py`
lines 337–360), in source order `eq_y, eq_c, eq_i, eq_x, eq_g, eq_mc,
eq_wage_share, eq_capital_share, eq_rental`. -/
def nineResiduals (p : NineEqParams) (v : NineVars) : List ℚ :=
  [v.y - 1,
   v.c - p.cY * v.y,
   v.i - p.iY * v.y,
   v.x - p.xY * v.y,
   v.g - p.gY * v.y,
   v.mc - mcTarget p,
   v.w * p.L - (1 - p.alpha) * v.mc * v.y,
   v.rK * v.k - p.alpha * v.mc * v.y,
   v.rK - rKTarget p]

/-- A successful root-find: all nine residuals vanish exactly. -/
def IsNineSolution (p : NineEqParams) (v : NineVars) : Prop :=
  nineResiduals p v = List.replicate 9 0

instance (p : NineEqParams) (v : NineVars) : Decidable (IsNineSolution p v) := by
  unfold IsNineSolution; infer_instance

/-- The initial guess `x_init` of `solve_full_steady_state` (lines 362–372),
which is also the exact solution of the nine-equation block. -/
def nineInitialGuess (p : NineEqParams) : NineVars :=
  { y := 1
    c := p.cY * 1
    i := p.iY * 1
    x := p.xY * 1
    g := p.gY * 1
    k := p.alpha * mcTarget p / rKTarget p
    w := (1 - p.alpha) * mcTarget p / p.L
    rK := rKTarget p
    mc := mcTarget p }

/-- The fields of the returned `SteadyState` record relevant to the
comparative-statics claim (`steady_state.py` lines 410–443): `output = y`,
`rental_rate = r_k`, `markup = lambda_d`. -/
structure SteadyStateReport where
  output : ℚ
  rental_rate : ℚ
  markup : ℚ

/-- Projection of a nine-equation solution onto the reported steady state. -/
def steadyStateReport (p : NineEqParams) (v : NineVars) : SteadyStateReport :=
  { output := v.y, rental_rate := v.rK, markup := p.lambdaD }

/-- The default `FiscalParameters()` used by `SimplifiedFiscalSolver.__init__`
when no parameters are passed (`dsge_fiscal_solver.py` line 121,
`dsge_simulation_engine.py` line 36). -/
def defaultFiscalParameters : FiscalParameters := {}

/-- A concrete reachable state for the C5 witness: fresh, started, completed. -/
def simCompletedExample : Sim Unit :=
  (Sim.complete (Sim.start (Sim.fresh Unit)).1 ()).1

/-- A 1×1 matrix holding one scalar. -/
def scalarMat (g : ℚ) : Matrix (Fin 1) (Fin 1) ℚ := Matrix.of fun _ _ => g

/-- A length-1 vector holding one scalar. -/
def constVec (v : ℚ) : Fin 1 → ℚ := fun _ => v

/-- Concrete parameter set for the C9 witness, `beta = 0.995`. -/
def c9pHigh : NineEqParams :=
  { alpha := 1/3, beta := 0.995, delta := 1/10, muZplus := 101/100,
    lambdaD := 11/10, L := 1, cY := 3/5, iY := 1/5, xY := 1/2, gY := 2/5,
    tauK := 1/10 }

/-- The same parameter set with `beta` lowered to `0.990`. -/
def c9pLow : NineEqParams := { c9pHigh with beta := 0.990 }

/-- Claim C1: for a square system whose number of unstable generalized
eigenvalues `nu` (roots with `|alpha/beta| >= div`) is positive, `gensys`
returns `eu = (0,0)` iff `rank(q2 @ pi) < nu`; `eu = (1,1)` iff
`rank(q2 @ pi) = nu` and `pi` has exactly `nu` columns; and `eu = (1,0)` in
every other case, i.e. rank equal to `nu` with more than `nu` columns, or rank
greater than `nu`.  The rank of a matrix with `cols` columns is at most
`cols`, hence the hypothesis. -/
theorem c1_eu_classification (nu rank cols : ℕ) (hnu : 0 < nu) (hrc : rank ≤ cols) :
    (euFlags nu rank cols = (0, 0) ↔ rank < nu) ∧
    (euFlags nu rank cols = (1, 1) ↔ rank = nu ∧ cols = nu) ∧
    (euFlags nu rank cols = (1, 0) ↔ (rank = nu ∧ nu < cols) ∨ nu < rank) := by
  unfold euFlags
  split_ifs with h0 h1 h2 h3 <;> simp_all [Prod.ext_iff] <;> omega

/-- Witness for C1 at `nu = 1`, `rank = 1`, `cols = 1`. -/
theorem c1_eu_classification_witness :
    (euFlags 1 1 1 = (0, 0) ↔ 1 < 1) ∧
    (euFlags 1 1 1 = (1, 1) ↔ 1 = 1 ∧ 1 = 1) ∧
    (euFlags 1 1 1 = (1, 0) ↔ (1 = 1 ∧ 1 < 1) ∨ 1 < 1) :=
  c1_eu_classification 1 1 1 (by decide) (by decide)

/-- Claim C10: when every generalized eigenvalue is stable (`nunstable = 0`),
`gensys` returns `eu = (1,1)` unconditionally: the rank-check block is skipped,
whatever the rank of `q2 @ pi` and however many columns `pi` has (zero or
not). -/
theorem c10_all_stable_eu (rank cols : ℕ) : euFlags 0 rank cols = (1, 1) := by
  simp [euFlags]

/-- Evaluation helper: banker's rounding rounds up when the fractional part
exceeds one half. -/
lemma roundHalfEven_eq_add_one (q : ℚ) (f : ℤ) (h1 : ⌊q⌋ = f)
    (h2 : 1/2 < q - f) : roundHalfEven q = f + 1 := by
  unfold roundHalfEven
  rw [h1, if_neg (by linarith), if_pos h2]

/-- Evaluation helper: banker's rounding rounds down when the fractional part
is below one half. -/
lemma roundHalfEven_eq_self (q : ℚ) (f : ℤ) (h1 : ⌊q⌋ = f)
    (h2 : q - f < 1/2) : roundHalfEven q = f := by
  unfold roundHalfEven
  rw [h1, if_pos h2]

/-- Evaluation helper: truncation of a negative rational is its ceiling. -/
lemma intTrunc_neg_eval (q : ℚ) (c : ℤ) (hq : q < 0) (h1 : (c : ℚ) - 1 < q)
    (h2 : q ≤ (c : ℚ)) : intTrunc q = c := by
  unfold intTrunc
  rw [if_neg (not_le.mpr hq)]
  exact Int.ceil_eq_iff.mpr ⟨by exact_mod_cast h1, h2⟩

/-- The reported year-1 employment change for the pension-removal shock:
the unrounded value is `-2250 * (1 - 0.6^4) = -1958.4`, rounded to `-1958`. -/
lemma pension_year1_employment :
    (horizonEntry defaultFiscalParameters pensionRemovalShock 1).employment_jobs = -1958 := by
  show roundHalfEven (employmentImpactAtYear defaultFiscalParameters pensionRemovalShock 1) = -1958
  have hval : employmentImpactAtYear defaultFiscalParameters pensionRemovalShock 1
      = -9792/5 := by
    norm_num [employmentImpactAtYear, employmentImpactFirstRound,
      gdpImpactFirstRound, realizedFraction, adjustmentSpeed,
      computeSteadyState, defaultFiscalParameters, pensionRemovalShock]
  rw [hval]
  rw [roundHalfEven_eq_add_one (-9792/5) (-1959) (by rw [Int.floor_eq_iff]; norm_num)
    (by norm_num)]
  norm_num

/-- Claim C3: the first-round GDP impact equals
`dT*0.8 + dGC*1.1 + dGI*1.3 - (dTy + dTwe + dTww)*0.01*32000*1.2
 - dTc*0.01*32000*0.5`, the first-round employment impact equals
`(GDP impact / 32000) * 0.5 * 900000`, and for the pension shock
(`delta_transfers = -200`, rest zero) the reported year-1 employment change is
`-1958` while the year-1 GDP impact is `-200 * 0.8 * (1 - (1 - 0.40)^4)`. -/
theorem c3_first_round (s : FiscalShock) :
    gdpImpactFirstRound defaultFiscalParameters s
      = s.delta_transfers * 0.8 + s.delta_gov_consumption * 1.1
        + s.delta_gov_investment * 1.3
        - (s.delta_tau_y + s.delta_tau_w_e + s.delta_tau_w_w) * 0.01 * 32000 * 1.2
        - s.delta_tau_c * 0.01 * 32000 * 0.5 ∧
    employmentImpactFirstRound defaultFiscalParameters s
      = gdpImpactFirstRound defaultFiscalParameters s / 32000 * 0.5 * 900000 ∧
    (horizonEntry defaultFiscalParameters pensionRemovalShock 1).employment_jobs
      = -1958 ∧
    gdpImpactAtYear defaultFiscalParameters pensionRemovalShock 1
      = -200 * 0.8 * (1 - (1 - 0.40) ^ 4) := by
  refine ⟨?_, ?_, ?_, ?_⟩
  · simp only [gdpImpactFirstRound, computeSteadyState, defaultFiscalParameters]
    ring
  · simp only [employmentImpactFirstRound, computeSteadyState]
  · exact pension_year1_employment
  · norm_num [gdpImpactAtYear, gdpImpactFirstRound, realizedFraction,
      adjustmentSpeed, computeSteadyState, defaultFiscalParameters,
      pensionRemovalShock]

/-- Claim C4: at each reported horizon year `Y ∈ {1, 5, 15}` the first-round
impacts are scaled by `1 - (1 - s)^(4*Y)` with `s = 0.40` for `Y = 1`,
`s = 0.25` for `2 ≤ Y ≤ 5` and `s = 0.15` for `Y ≥ 6`; at `Y = 5` the realized
fraction equals `1 - 0.75^20`. -/
theorem c4_realized_fraction (s : FiscalShock) (Y : ℕ) (hY : Y = 1 ∨ Y = 5 ∨ Y = 15) :
    (Y = 1 →
      realizedFraction defaultFiscalParameters Y = 1 - (1 - 0.40) ^ (4 * Y)) ∧
    (2 ≤ Y ∧ Y ≤ 5 →
      realizedFraction defaultFiscalParameters Y = 1 - (1 - 0.25) ^ (4 * Y)) ∧
    (6 ≤ Y →
      realizedFraction defaultFiscalParameters Y = 1 - (1 - 0.15) ^ (4 * Y)) ∧
    gdpImpactAtYear defaultFiscalParameters s Y
      = gdpImpactFirstRound defaultFiscalParameters s
        * realizedFraction defaultFiscalParameters Y ∧
    employmentImpactAtYear defaultFiscalParameters s Y
      = employmentImpactFirstRound defaultFiscalParameters s
        * realizedFraction defaultFiscalParameters Y ∧
    budgetImpactAtYear defaultFiscalParameters s Y
      = budgetBalanceImpact defaultFiscalParameters s
        * realizedFraction defaultFiscalParameters Y ∧
    realizedFraction defaultFiscalParameters 5 = 1 - 0.75 ^ 20 := by
  refine ⟨?_, ?_, ?_, rfl, rfl, rfl,
    by norm_num [realizedFraction, adjustmentSpeed, defaultFiscalParameters]⟩
  · rintro rfl
    norm_num [realizedFraction, adjustmentSpeed, defaultFiscalParameters]
  · rintro ⟨h2, h5⟩
    have : Y = 5 := by omega
    subst this
    norm_num [realizedFraction, adjustmentSpeed, defaultFiscalParameters]
  · intro h6
    have : Y = 15 := by omega
    subst this
    norm_num [realizedFraction, adjustmentSpeed, defaultFiscalParameters]

/-- Witness for C4 at `Y = 5` with the pension shock. -/
theorem c4_realized_fraction_witness :
    ((5 : ℕ) = 1 ∨ (5 : ℕ) = 5 ∨ (5 : ℕ) = 15) ∧
    realizedFraction defaultFiscalParameters 5 = 1 - (1 - 0.25) ^ (4 * 5) :=
  ⟨by decide, ((c4_realized_fraction pensionRemovalShock 5 (by decide)).2.1 (by decide))⟩

/-- Claim C2: for every `n x n` matrix `G1_red`, `n x k` impact matrix,
horizon `H ≥ 0` and optional shock scaling, `compute_irfs` returns a tensor
`R` with `R[:, 0, j] = sigma_j * Impact[:, j]` and
`R[:, t, j] = G1_red @ R[:, t-1, j]` for `1 ≤ t ≤ H`; when the scaling is
omitted it defaults to all ones.  The function is a pure function of its
arguments (no hidden state). -/
theorem c2_irf_recurrence {n k : ℕ} (g1 : Matrix (Fin n) (Fin n) ℚ)
    (impact : Matrix (Fin n) (Fin k) ℚ) (H : ℕ) (sizes : Option (Fin k → ℚ)) :
    (∀ (j : Fin k) (i : Fin n),
      compute_irfs g1 impact H sizes i 0 j
        = (sizes.getD (fun _ => 1)) j * impact i j) ∧
    (∀ t : Fin (H + 1), 1 ≤ t.val → ∀ (j : Fin k) (i : Fin n),
      compute_irfs g1 impact H sizes i t j
        = g1.mulVec
            (fun i' => compute_irfs g1 impact H sizes i' ⟨t.val - 1, by omega⟩ j) i) ∧
    compute_irfs g1 impact H none
      = compute_irfs g1 impact H (some (fun _ => 1)) := by
  refine ⟨?_, ?_, rfl⟩
  · intro j i
    show irfStep g1 (fun i' => impact i' j * (sizes.getD (fun _ => 1)) j) (0 : Fin (H+1)).val i = _
    simp [irfStep, mul_comm]
  · intro t ht j i
    rcases t with ⟨tv, htv⟩
    have ht' : 1 ≤ tv := ht
    obtain ⟨m, rfl⟩ : ∃ m, tv = m + 1 := ⟨tv - 1, by omega⟩
    rfl

/-- Witness for C2: a concrete 1-variable, 1-shock system with `G1_red = 2`,
`Impact = 3`, `H = 1`, evaluated at `t = 1`. -/
theorem c2_irf_recurrence_witness :
    (1 : ℕ) ≤ (1 : Fin 2).val ∧
    compute_irfs (Matrix.of fun _ _ => (2 : ℚ)) (Matrix.of fun _ _ => (3 : ℚ))
      1 none (0 : Fin 1) (1 : Fin 2) (0 : Fin 1) = 6 := by
  constructor
  · decide
  · have h := (c2_irf_recurrence (Matrix.of fun _ _ => (2 : ℚ))
      (Matrix.of fun _ _ => (3 : ℚ)) 1 none).2.1 (1 : Fin 2) (by decide)
      (0 : Fin 1) (0 : Fin 1)
    rw [h]
    norm_num [compute_irfs, irfStep, Matrix.mulVec, Matrix.dotProduct]

/-- A successful `start` call certifies a pending state and yields the
running update. -/
lemma sim_start_ok {R : Type} {s : Sim R} (h : (Sim.start s).2 = none) :
    s.status = .pending ∧
    (Sim.start s).1 = { s with status := .running, started_at := some () } := by
  unfold Sim.start at h ⊢
  by_cases hc : s.status ≠ .pending
  · rw [if_pos hc] at h
    simp at h
  · exact ⟨not_not.mp hc, by rw [if_neg hc]⟩

/-- A successful `complete` call certifies a running state and yields the
completed update. -/
lemma sim_complete_ok {R : Type} {s : Sim R} {r : R}
    (h : (Sim.complete s r).2 = none) :
    s.status = .running ∧
    (Sim.complete s r).1
      = { s with status := .completed, results := some r, completed_at := some () } := by
  unfold Sim.complete at h ⊢
  by_cases hc : s.status ≠ .running
  · rw [if_pos hc] at h
    simp at h
  · exact ⟨not_not.mp hc, by rw [if_neg hc]⟩

/-- A successful `fail` call certifies a pending-or-running state and yields
the failed update. -/
lemma sim_fail_ok {R : Type} {s : Sim R} {msg : String}
    (h : (Sim.fail s msg).2 = none) :
    (s.status = .pending ∨ s.status = .running) ∧
    (Sim.fail s msg).1
      = { s with status := .failed, error_message := some msg, completed_at := some () } := by
  unfold Sim.fail at h ⊢
  by_cases hc : s.status ≠ .pending ∧ s.status ≠ .running
  · rw [if_pos hc] at h
    simp at h
  · refine ⟨?_, by rw [if_neg hc]⟩
    rcases not_and_or.mp hc with h1 | h2
    · exact Or.inl (not_not.mp h1)
    · exact Or.inr (not_not.mp h2)

/-- Lifecycle invariant maintained by every reachable `Simulation` state:
results are attached exactly in the `completed` state, and a failed state
carries an error message. -/
lemma sim_reachable_invariant {R : Type} (s : Sim R) (h : Sim.Reachable s) :
    (s.status = .completed → s.results.isSome) ∧
    (s.results.isSome → s.status = .completed) ∧
    (s.status = .failed → s.error_message.isSome) := by
  induction h with
  | fresh => simp [Sim.fresh]
  | @step_start s' hs hnone ih =>
    obtain ⟨hc, heq⟩ := sim_start_ok hnone
    rw [heq]
    refine ⟨fun h => ?_, fun h => ?_, fun h => ?_⟩
    · exact absurd h (by simp)
    · have := ih.2.1 (by simpa using h)
      rw [hc] at this
      exact absurd this (by simp)
    · exact absurd h (by simp)
  | @step_complete s' r hs hnone ih =>
    obtain ⟨hc, heq⟩ := sim_complete_ok hnone
    rw [heq]
    refine ⟨fun h => by simp, fun h => by simp, fun h => ?_⟩
    · exact absurd h (by simp)
  | @step_fail s' msg hs hnone ih =>
    obtain ⟨hc, heq⟩ := sim_fail_ok hnone
    rw [heq]
    refine ⟨fun h => ?_, fun h => ?_, fun h => by simp⟩
    · exact absurd h (by simp)
    · have := ih.2.1 (by simpa using h)
      rcases hc with h1 | h1 <;> rw [h1] at this <;> exact absurd this (by simp)

/-- Claim C5: every `Simulation` state reachable from a fresh run satisfies:
`completed` implies results attached, `failed` implies an error message is
present and results absent; `start` raises unless the status is `pending`,
`complete` raises unless `running`, `fail` raises unless `pending` or
`running`, and a raising call returns the state unchanged. -/
theorem c5_lifecycle {R : Type} (s : Sim R) (h : Sim.Reachable s) :
    (s.status = .completed → s.results.isSome) ∧
    (s.status = .failed → s.error_message.isSome ∧ s.results = none) ∧
    (∀ s' : Sim R, s'.status ≠ .pending →
      (Sim.start s').2.isSome ∧ (Sim.start s').1 = s') ∧
    (∀ (s' : Sim R) (r : R), s'.status ≠ .running →
      (Sim.complete s' r).2.isSome ∧ (Sim.complete s' r).1 = s') ∧
    (∀ (s' : Sim R) (m : String), s'.status ≠ .pending → s'.status ≠ .running →
      (Sim.fail s' m).2.isSome ∧ (Sim.fail s' m).1 = s') := by
  obtain ⟨h1, h2, h3⟩ := sim_reachable_invariant s h
  refine ⟨h1, ?_, ?_, ?_, ?_⟩
  · intro hf
    refine ⟨h3 hf, ?_⟩
    rcases hr : s.results with _ | r
    · rfl
    · exact absurd (h2 (by simp [hr])) (by simp [hf])
  · intro s' hp
    unfold Sim.start
    rw [if_pos hp]
    exact ⟨rfl, rfl⟩
  · intro s' r hr
    unfold Sim.complete
    rw [if_pos hr]
    exact ⟨rfl, rfl⟩
  · intro s' m hp hr
    unfold Sim.fail
    rw [if_pos ⟨hp, hr⟩]
    exact ⟨rfl, rfl⟩

/-- Witness for C5 at the concrete completed run `simCompletedExample`. -/
theorem c5_lifecycle_witness :
    (simCompletedExample.status = .completed → simCompletedExample.results.isSome) ∧
    (simCompletedExample.status = .failed →
      simCompletedExample.error_message.isSome ∧ simCompletedExample.results = none) ∧
    (∀ s' : Sim Unit, s'.status ≠ .pending →
      (Sim.start s').2.isSome ∧ (Sim.start s').1 = s') ∧
    (∀ (s' : Sim Unit) (r : Unit), s'.status ≠ .running →
      (Sim.complete s' r).2.isSome ∧ (Sim.complete s' r).1 = s') ∧
    (∀ (s' : Sim Unit) (m : String), s'.status ≠ .pending → s'.status ≠ .running →
      (Sim.fail s' m).2.isSome ∧ (Sim.fail s' m).1 = s') :=
  c5_lifecycle simCompletedExample
    (Sim.Reachable.step_complete () (Sim.Reachable.step_start Sim.Reachable.fresh rfl) rfl)

/-- Evaluation helper: both-sided bound on truncation toward zero. -/
lemma intTrunc_bounds (q : ℚ) :
    (q - 1 : ℚ) < (intTrunc q : ℚ) ∧ ((intTrunc q : ℚ)) < q + 1 := by
  unfold intTrunc
  split
  · refine ⟨?_, ?_⟩
    · have h := Int.sub_one_lt_floor q
      linarith
    · have h := Int.floor_le q
      linarith
  · refine ⟨?_, ?_⟩
    · have h := Int.le_ceil q
      linarith
    · have h := Int.ceil_lt_add_one q
      linarith

/-- Counterexample for claim C6: the pension-removal policy yields a national
year-1 employment change of `-1958` jobs, but the six per-region values
`int(-1958 * weight)` sum to `-1955`, which differs from the national value by
3 jobs — more than the claimed 1 job. -/
theorem c6_counterexample :
    (horizonEntry defaultFiscalParameters pensionRemovalShock 1).employment_jobs = -1958 ∧
    regionalEmploymentSum (-1958) = -1955 ∧
    ¬ (|(-1958 : ℤ) - regionalEmploymentSum (-1958)| ≤ 1) := by
  have hsum : regionalEmploymentSum (-1958) = -1955 := by
    have h1 : intTrunc (((-1958 : ℤ) : ℚ) * 0.42) = -822 :=
      intTrunc_neg_eval _ _ (by norm_num) (by norm_num) (by norm_num)
    have h2 : intTrunc (((-1958 : ℤ) : ℚ) * 0.18) = -352 :=
      intTrunc_neg_eval _ _ (by norm_num) (by norm_num) (by norm_num)
    have h3 : intTrunc (((-1958 : ℤ) : ℚ) * 0.12) = -234 :=
      intTrunc_neg_eval _ _ (by norm_num) (by norm_num) (by norm_num)
    have h4 : intTrunc (((-1958 : ℤ) : ℚ) * 0.09) = -176 :=
      intTrunc_neg_eval _ _ (by norm_num) (by norm_num) (by norm_num)
    have h5 : intTrunc (((-1958 : ℤ) : ℚ) * 0.10) = -195 :=
      intTrunc_neg_eval _ _ (by norm_num) (by norm_num) (by norm_num)
    simp only [regionalEmploymentSum, regionWeights, regionalEmployment,
      List.map_cons, List.map_nil, List.sum_cons, List.sum_nil, add_zero]
    rw [h1, h2, h3, h4, h5]
    norm_num
  refine ⟨pension_year1_employment, hsum, ?_⟩
  rw [hsum]
  norm_num

/-- Claim C6 amended: the regional weights used by the simulation engine sum
to 1, and for every national employment value the sum of the six per-region
`int(national * weight)` values equals the national value to within 5 jobs
(each of the six truncations loses strictly less than one job). -/
theorem c6_amended (national : ℤ) :
    (regionWeights.map Prod.snd).sum = 1 ∧
    |national - regionalEmploymentSum national| ≤ 5 := by
  constructor
  · norm_num [regionWeights]
  · have b1 := intTrunc_bounds (((national : ℤ) : ℚ) * 0.42)
    have b2 := intTrunc_bounds (((national : ℤ) : ℚ) * 0.18)
    have b3 := intTrunc_bounds (((national : ℤ) : ℚ) * 0.12)
    have b4 := intTrunc_bounds (((national : ℤ) : ℚ) * 0.09)
    have b5 := intTrunc_bounds (((national : ℤ) : ℚ) * 0.10)
    have hS : regionalEmploymentSum national
        = intTrunc (((national : ℤ) : ℚ) * 0.42) + intTrunc (((national : ℤ) : ℚ) * 0.18)
          + intTrunc (((national : ℤ) : ℚ) * 0.12) + intTrunc (((national : ℤ) : ℚ) * 0.09)
          + intTrunc (((national : ℤ) : ℚ) * 0.10) + intTrunc (((national : ℤ) : ℚ) * 0.09) := by
      simp only [regionalEmploymentSum, regionWeights, regionalEmployment,
        List.map_cons, List.map_nil, List.sum_cons, List.sum_nil, add_zero]
      ring
    have hlt : ((national - regionalEmploymentSum national : ℤ) : ℚ) < 6 ∧
        (-6 : ℚ) < ((national - regionalEmploymentSum national : ℤ) : ℚ) := by
      rw [hS]
      push_cast
      constructor <;> linarith
    have hlt1 : national - regionalEmploymentSum national < 6 := by exact_mod_cast hlt.1
    have hlt2 : -6 < national - regionalEmploymentSum national := by exact_mod_cast hlt.2
    rw [abs_le]
    omega

/-- Counterexample for claim C7: for the 1×1 system `g0 = g1 = 1e-15`,
`psi = 1`, the sole generalized eigenvalue has `|alpha/beta| = 1 < div`, so
the whole system is the stable block and back-substitution inverts
`s11 = 1e-15`, a pivot far below `1e-14`; yet `gensys` raises nothing and
returns the numeric result `(G1, C, impact, eu) = (1, 0, 1e15, (1,1))` —
there is no `SingularPencil` check anywhere in `gensys.py`. -/
theorem c7_counterexample :
    gensys1 (1/10^15) (1/10^15) 1 defaultDiv
      = some (1, 0, 10^15, (1, 1)) ∧
    (1/10^15 : ℚ) < 1/10^14 := by
  constructor
  · norm_num [gensys1, defaultDiv, euFlags]
  · norm_num

/-- Claim C7 amended: `gensys` applies no pivot-magnitude threshold at all.
In the 1×1 embedding its back-substitution fails only when `np.linalg.inv`
meets an exactly singular matrix — that is, when the stable block `s11 = g0`
is exactly zero (which requires the root to be selected as stable, i.e.
`g1 ≠ 0` and `|g0/g1| < div`); for every nonzero pivot, however small, it
returns a numeric result. -/
theorem c7_amended (g0 g1 psi div : ℚ) :
    gensys1 g0 g1 psi div = none ↔ (g0 = 0 ∧ g1 ≠ 0 ∧ |g0 / g1| < div) := by
  simp only [gensys1]
  by_cases hsel : g1 ≠ 0 ∧ |g0 / g1| < div
  · rw [if_pos hsel]
    by_cases hz : g0 = 0
    · rw [if_neg (by norm_num), if_pos hz]
      have hd : (0 : ℚ) < div := by
        have h2 := hsel.2
        rw [hz] at h2
        simpa using h2
      simp [hz, hsel.1, hd]
    · rw [if_neg (by norm_num), if_neg hz]
      simp [hz]
  · rw [if_neg hsel]
    rw [if_pos rfl]
    constructor
    · intro h
      exact absurd h (by simp)
    · intro h
      exact absurd (And.intro h.2.1 h.2.2) hsel

/-- For a 1×1 reduced form the IRF loop is a geometric sequence. -/
lemma irfStep_scalar (g v0 : ℚ) (t : ℕ) :
    irfStep (scalarMat g) (constVec v0) t 0 = g ^ t * v0 := by
  induction t with
  | zero => simp [irfStep, constVec]
  | succ t ih =>
    have hm : (scalarMat g).mulVec (irfStep (scalarMat g) (constVec v0) t) 0
        = g * irfStep (scalarMat g) (constVec v0) t 0 := by
      simp [Matrix.mulVec, Matrix.dotProduct, Fin.sum_univ_one, scalarMat]
    show (scalarMat g).mulVec (irfStep (scalarMat g) (constVec v0) t) 0 = g ^ (t + 1) * v0
    rw [hm, ih]
    ring

/-- The constant-one 1×1 system keeps every IRF entry at 1. -/
lemma irf_const_one (H : ℕ) (t : Fin (H + 1)) :
    compute_irfs (scalarMat 1) (scalarMat 1) H none 0 t 0 = 1 := by
  have hfun : (fun i' : Fin 1 =>
      scalarMat 1 i' 0 * ((none : Option (Fin 1 → ℚ)).getD (fun _ => 1)) 0)
      = constVec 1 := by
    funext i'
    simp [scalarMat, constVec]
  show irfStep (scalarMat 1)
    (fun i' => scalarMat 1 i' 0 * ((none : Option (Fin 1 → ℚ)).getD (fun _ => 1)) 0)
    t.val 0 = 1
  rw [hfun, irfStep_scalar]
  simp

/-- Counterexample for claim C8: the 1×1 system `g0 = g1 = 1` has its only
generalized eigenvalue at `|alpha/beta| = 1 < div`, so `gensys` classifies it
as stable, returns `eu = (1,1)` and the reduced form `G1_red = 1`; the
resulting IRF is constantly 1, does not tend to 0, and at `H = 40` its norm
equals the initial norm instead of being at most a tenth of it. -/
theorem c8_counterexample :
    gensys1 1 1 1 defaultDiv = some (1, 0, 1, (1, 1)) ∧
    compute_irfs (scalarMat 1) (scalarMat 1) 40 none 0 ⟨40, by omega⟩ 0 = 1 ∧
    ¬ (|compute_irfs (scalarMat 1) (scalarMat 1) 40 none 0 ⟨40, by omega⟩ 0|
        ≤ 1/10 * |compute_irfs (scalarMat 1) (scalarMat 1) 40 none 0 ⟨0, by omega⟩ 0|) := by
  refine ⟨by norm_num [gensys1, defaultDiv, euFlags], irf_const_one 40 ⟨40, by omega⟩, ?_⟩
  rw [irf_const_one 40 ⟨40, by omega⟩, irf_const_one 40 ⟨0, by omega⟩]
  norm_num

/-- Claim C8 amended: `eu = (1,1)` does not make the IRF decay, because the
stability selection `|alpha/beta| < div` admits reduced-form roots of modulus
up to and beyond 1.  What holds is: if the reduced-form root has modulus
strictly below 1 then the IRF tends to 0 as `t → ∞`, and the specific bound
on `R[:, 40, :]` being at most a tenth of `R[:, 0, :]` holds under the
stronger modulus bound `|g| ≤ 0.942 < 0.1^(1/40)`.  The last conjunct ties
the loop `irfStep` to the `compute_irfs` tensor. -/
theorem c8_amended (g v0 : ℚ) (hg : |g| < 1) :
    Filter.Tendsto
      (fun t : ℕ => ((irfStep (scalarMat g) (constVec v0) t 0 : ℚ) : ℝ))
      Filter.atTop (nhds 0) ∧
    (|g| ≤ 471/500 →
      |irfStep (scalarMat g) (constVec v0) 40 0|
        ≤ 1/10 * |irfStep (scalarMat g) (constVec v0) 0 0|) ∧
    (∀ (H : ℕ) (t : Fin (H + 1)),
      compute_irfs (scalarMat g) (scalarMat v0) H none 0 t 0
        = irfStep (scalarMat g) (constVec v0) t.val 0) := by
  refine ⟨?_, ?_, ?_⟩
  · have hfun : (fun t : ℕ =>
        ((irfStep (scalarMat g) (constVec v0) t 0 : ℚ) : ℝ))
        = fun t : ℕ => (g : ℝ) ^ t * (v0 : ℝ) := by
      funext t
      rw [irfStep_scalar]
      push_cast
      ring
    rw [hfun]
    have hg' : |(g : ℝ)| < 1 := by
      rw [← Rat.cast_abs]
      exact_mod_cast hg
    simpa using (tendsto_pow_atTop_nhds_zero_of_abs_lt_one hg').mul_const (v0 : ℝ)
  · intro hgb
    rw [irfStep_scalar, irfStep_scalar, pow_zero, one_mul, abs_mul, abs_pow]
    have h40 : |g| ^ 40 ≤ (471/500 : ℚ) ^ 40 := pow_le_pow_left₀ (abs_nonneg g) hgb 40
    have hc : ((471 : ℚ)/500) ^ 40 ≤ 1/10 := by norm_num
    calc |g| ^ 40 * |v0| ≤ (471/500 : ℚ) ^ 40 * |v0| :=
          mul_le_mul_of_nonneg_right h40 (abs_nonneg v0)
      _ ≤ 1/10 * |v0| := mul_le_mul_of_nonneg_right hc (abs_nonneg v0)
  · intro H t
    show irfStep (scalarMat g)
      (fun i' => scalarMat v0 i' 0 * ((none : Option (Fin 1 → ℚ)).getD (fun _ => 1)) 0)
      t.val 0 = _
    congr 1
    funext i'
    simp [scalarMat, constVec]

/-- Witness for C8 (amended) at the concrete root `g = 1/2`, `v0 = 1`. -/
theorem c8_amended_witness :
    |(1 : ℚ)/2| < 1 ∧
    Filter.Tendsto
      (fun t : ℕ => ((irfStep (scalarMat ((1 : ℚ)/2)) (constVec 1) t 0 : ℚ) : ℝ))
      Filter.atTop (nhds 0) := by
  have habs : |(1 : ℚ)/2| < 1 := by
    rw [abs_of_pos (by norm_num : (0 : ℚ) < 1/2)]
    norm_num
  exact ⟨habs, (c8_amended ((1 : ℚ)/2) 1 habs).1⟩

/-- Claim C9: whenever the nine-equation root-find succeeds for two parameter
sets that differ only in a strictly lower discount factor `beta` (with the
physical side conditions `0 < beta`, `0 < mu_zplus`, `tau_k < 1`), the
recomputed steady state keeps output normalized to 1, has a strictly higher
rental rate `r_k`, and leaves the markup `lambda_d` unchanged. -/
theorem c9_beta_comparative_statics (p p' : NineEqParams) (v v' : NineVars)
    (hv : IsNineSolution p v) (hv' : IsNineSolution p' v')
    (hbeta : p'.beta < p.beta) (hbeta0 : 0 < p'.beta)
    (hmu : 0 < p.muZplus) (htk : p.tauK < 1)
    (heq : p'.alpha = p.alpha ∧ p'.delta = p.delta ∧ p'.muZplus = p.muZplus
      ∧ p'.lambdaD = p.lambdaD ∧ p'.L = p.L ∧ p'.cY = p.cY ∧ p'.iY = p.iY
      ∧ p'.xY = p.xY ∧ p'.gY = p.gY ∧ p'.tauK = p.tauK) :
    (steadyStateReport p' v').output = 1 ∧
    (steadyStateReport p v).rental_rate < (steadyStateReport p' v').rental_rate ∧
    (steadyStateReport p' v').markup = (steadyStateReport p v).markup := by
  obtain ⟨ha, hd, hm, hl, hL, hcy, hiy, hxy, hgy, ht⟩ := heq
  simp only [IsNineSolution, nineResiduals, List.replicate, List.cons.injEq,
    and_true] at hv hv'
  obtain ⟨hy, -, -, -, -, -, -, -, hr⟩ := hv
  obtain ⟨hy', -, -, -, -, -, -, -, hr'⟩ := hv'
  refine ⟨by simp only [steadyStateReport]; linarith, ?_, by
    simp only [steadyStateReport, hl]⟩
  simp only [steadyStateReport]
  have hvr : v.rK = rKTarget p := by linarith
  have hvr' : v'.rK = rKTarget p' := by linarith
  rw [hvr, hvr']
  unfold rKTarget
  rw [hm, hd, ht]
  have hfrac : p.muZplus / p.beta < p.muZplus / p'.beta :=
    div_lt_div_of_pos_left hmu hbeta0 hbeta
  have hnum : p.muZplus / p.beta - (1 - p.delta + p.tauK * p.delta)
      < p.muZplus / p'.beta - (1 - p.delta + p.tauK * p.delta) := by
    linarith
  have hdpos : (0 : ℚ) < 1 - p.tauK := by linarith
  rw [div_eq_mul_inv, div_eq_mul_inv
    (p.muZplus / p'.beta - (1 - p.delta + p.tauK * p.delta))]
  exact mul_lt_mul_of_pos_right hnum (inv_pos.mpr hdpos)

/-- Witness for C9: the closed-form solution (the solver's own initial guess)
solves the nine-equation block exactly for both parameter sets, and the
comparative statics hold for `beta : 0.995 → 0.990`. -/
theorem c9_beta_comparative_statics_witness :
    IsNineSolution c9pHigh (nineInitialGuess c9pHigh) ∧
    IsNineSolution c9pLow (nineInitialGuess c9pLow) ∧
    (steadyStateReport c9pLow (nineInitialGuess c9pLow)).output = 1 ∧
    (steadyStateReport c9pHigh (nineInitialGuess c9pHigh)).rental_rate
      < (steadyStateReport c9pLow (nineInitialGuess c9pLow)).rental_rate ∧
    (steadyStateReport c9pLow (nineInitialGuess c9pLow)).markup
      = (steadyStateReport c9pHigh (nineInitialGuess c9pHigh)).markup := by
  have h1 : IsNineSolution c9pHigh (nineInitialGuess c9pHigh) := by
    norm_num [IsNineSolution, nineResiduals, nineInitialGuess, rKTarget,
      mcTarget, c9pHigh, List.replicate]
  have h2 : IsNineSolution c9pLow (nineInitialGuess c9pLow) := by
    norm_num [IsNineSolution, nineResiduals, nineInitialGuess, rKTarget,
      mcTarget, c9pLow, c9pHigh, List.replicate]
  have h3 := c9_beta_comparative_statics c9pHigh c9pLow
    (nineInitialGuess c9pHigh) (nineInitialGuess c9pLow) h1 h2
    (by norm_num [c9pLow, c9pHigh]) (by norm_num [c9pLow, c9pHigh])
    (by norm_num [c9pHigh]) (by norm_num [c9pHigh])
    (by refine ⟨?_, ?_, ?_, ?_, ?_, ?_, ?_, ?_, ?_, ?_⟩ <;> rfl)
  exact ⟨h1, h2, h3.1, h3.2.1, h3.2.2⟩
